import Mathlib

/-
Verification development for the astro / dd-manager reconciliation core.

The Go sources embedded here are:
  pkg/config/config.go      (ruleset store, matcher, binding inheritance)
  pkg/util/datadog.go       (sync engine against the datadog backend)
  pkg/handler/deployments.go (deployment event handlers, template renderer)

Modelling conventions:
  - Go maps with string keys are association lists (GoMap); a nil map and
    an empty map are both `[]` for reads, while the nil/non-nil distinction
    is kept (as `Option GoMap`) where the code can write into a map, since
    writing into a nil Go map is a runtime panic.
  - A runtime panic is `Except.error ()`.
  - The datadog HTTP client is an environment (DDEnv) giving the result of
    each backend endpoint; the calls a function issues are returned as an
    explicit trace (`List DDCall`).
  - go-datadog-api's Monitor uses pointer fields; they are modelled as
    plain values (Id, which the code leaves nil in places, stays Option).
  - The text/template engine is an oracle `String -> TplOutcome` giving,
    for a field's template text, the outcome of parsing it and executing
    it against the fixed live object.
-/

set_option maxRecDepth 4000

namespace Astro

/-- A Go `map[string]string`, as an association list with unique keys. -/
abbrev GoMap : Type := List (String × String)

/-- Read `m[k]` with its found flag: `none` models `found == false`. -/
def mapLookup (m : GoMap) (k : String) : Option String :=
  (List.find? (fun kv => kv.1 == k) m).map Prod.snd

/-- Write `m[k] = v` into a non-nil Go map. -/
def mapInsert (m : GoMap) (k v : String) : GoMap :=
  if (List.find? (fun kv => kv.1 == k) m).isSome then
    List.map (fun kv => if kv.1 == k then (k, v) else kv) m
  else
    m ++ [(k, v)]

/-- config.go: `Annotation` — a required (name, value) pair of a rule. -/
structure AnnotationPair where
  Name : String
  Value : String
deriving DecidableEq

/-- Modelled from the spec: the `conf.Thresholds` record (its source file is
not under src/); its six fields are copied pointwise by `toMonitor` and
`toDdMonitor` in pkg/util/datadog.go, which fixes the field inventory. -/
structure Thresholds where
  Ok : Option Int
  Critical : Option Int
  Warning : Option Int
  Unknown : Option Int
  CriticalRecovery : Option Int
  WarningRecovery : Option Int
deriving DecidableEq

/-- Modelled from the spec: the `conf.Monitor` record (its source file is not
under src/). The spec's MonitorTemplate has the four text fields plus
structured fields; the exact inventory is fixed by the field-for-field
copies in `toMonitor` / `toDdMonitor` (pkg/util/datadog.go). -/
structure Monitor where
  Name : String
  MonitorType : String
  Query : String
  Message : String
  Tags : List String
  NoDataTimeframe : Int
  NotifyAudit : Bool
  NotifyNoData : Bool
  RenotifyInterval : Int
  NewHostDelay : Int
  EvaluationDelay : Int
  Timeout : Int
  EscalationMessage : String
  Thresholds : Thresholds
  RequireFullWindow : Bool
  Locked : Bool
deriving DecidableEq

/-- go-datadog-api `Options` (pointer fields modelled as values). -/
structure DdOptions where
  NoDataTimeframe : Int
  NotifyAudit : Bool
  NotifyNoData : Bool
  RenotifyInterval : Int
  NewHostDelay : Int
  EvaluationDelay : Int
  TimeoutH : Int
  EscalationMessage : String
  Thresholds : Thresholds
  RequireFullWindow : Bool
  Locked : Bool
deriving DecidableEq

/-- go-datadog-api `Monitor` (the backend's representation). `Id` stays an
Option because the code builds values whose Id pointer is nil. -/
structure DdMonitor where
  Id : Option Int
  MonitorType : String
  Query : String
  Name : String
  Message : String
  Tags : List String
  Options : DdOptions
deriving DecidableEq

/-- datadog.go `toDdMonitor`: builds a backend monitor from a conf.Monitor.
The composite literal never sets Id, so it is nil (`none`). -/
def toDdMonitor (i : Monitor) : DdMonitor :=
  { Id := none
    MonitorType := i.MonitorType
    Query := i.Query
    Name := i.Name
    Message := i.Message
    Tags := i.Tags
    Options :=
      { NoDataTimeframe := i.NoDataTimeframe
        NotifyAudit := i.NotifyAudit
        NotifyNoData := i.NotifyNoData
        RenotifyInterval := i.RenotifyInterval
        NewHostDelay := i.NewHostDelay
        EvaluationDelay := i.EvaluationDelay
        TimeoutH := i.Timeout
        EscalationMessage := i.EscalationMessage
        Thresholds := i.Thresholds
        RequireFullWindow := i.RequireFullWindow
        Locked := i.Locked } }

/-- datadog.go `toMonitor`: converts a backend monitor back. The composite
literal never sets Locked, so it is the zero value `false`. -/
def toMonitor (i : DdMonitor) : Monitor :=
  { Name := i.Name
    MonitorType := i.MonitorType
    Query := i.Query
    Message := i.Message
    Tags := i.Tags
    NoDataTimeframe := i.Options.NoDataTimeframe
    NotifyAudit := i.Options.NotifyAudit
    NotifyNoData := i.Options.NotifyNoData
    RenotifyInterval := i.Options.RenotifyInterval
    NewHostDelay := i.Options.NewHostDelay
    EvaluationDelay := i.Options.EvaluationDelay
    Timeout := i.Options.TimeoutH
    EscalationMessage := i.Options.EscalationMessage
    Thresholds := i.Options.Thresholds
    RequireFullWindow := i.Options.RequireFullWindow
    Locked := false }

/-- config.go: `MonitorSet` — a match rule. In the source the ruleset-side
monitors are datadog.Monitor and the handler-side ones conf.Monitor (the
repo mixes the two generations of the code); the claims only touch the
fields the two share, so one Monitor type stands for both. -/
structure MonitorSet where
  ObjectType : String
  Annotations : List AnnotationPair
  BoundObjects : List String
  Monitors : List Monitor
deriving DecidableEq

/-- config.go: the `ruleset` yaml document. ClusterVariables is a Go map
that the reload code writes into, so nil (`none`) and non-nil are kept
apart: `ruleset{}` leaves it nil. -/
structure ruleset where
  ClusterVariables : Option GoMap
  MonitorSets : List MonitorSet
deriving DecidableEq

/-- config.go / conf: the application configuration. Only the fields the
embedded functions read are kept (the datadog keys, cluster name and dry-run
flag are bootstrap-only). -/
structure Config where
  OwnerTag : String
  MonitorDefinitionsPath : List String
  Rulesets : ruleset
deriving DecidableEq

/-- config.go `contains`: linear membership scan. -/
def contains (slice : List String) (key : String) : Bool :=
  slice.any (fun element => element == key)

/-- config.go, the inner loop of `getMatchingRulesets`: the running value of
the `hasAllAnnotations` flag. It starts `false`; each required annotation
found with an exactly equal value sets it `true`; any miss breaks out with
`false`. An empty required list therefore leaves it `false`. -/
def hasAllAnnotations (annotations : GoMap) : Bool → List AnnotationPair → Bool
  | hasAll, [] => hasAll
  | _, a :: rest =>
    match mapLookup annotations a.Name with
    | some v => if v = a.Value then hasAllAnnotations annotations true rest else false
    | none => false

/-- config.go `getMatchingRulesets`: keep, in declaration order, the monitor
sets whose ObjectType equals the argument and whose annotation check ends
with the flag set. -/
def getMatchingRulesets (config : Config) (annotations : GoMap) (objectType : String) : List MonitorSet :=
  List.filter
    (fun monitorSet =>
      monitorSet.ObjectType == objectType && hasAllAnnotations annotations false monitorSet.Annotations)
    config.Rulesets.MonitorSets

/-- config.go `GetMatchingMonitors`: concatenate the monitors of every
matching monitor set. -/
def GetMatchingMonitors (config : Config) (annotations : GoMap) (objectType : String) : List Monitor :=
  List.flatMap (getMatchingRulesets config annotations objectType) (fun mSet => mSet.Monitors)

/-- Go semantics of `for _, monitor := range monitors \x7b monitor.Tags =
append(monitor.Tags, tag) \x7d`: the loop variable is a copy of the slice
element, so the append lands in the copy and is discarded when the iteration
ends; the slice itself is returned unchanged. The discarded copy is kept
explicit so the loop body stays visible. -/
def rangeAppendTagToCopies (monitors : List Monitor) (tag : String) : List Monitor :=
  List.map
    (fun monitor =>
      let _copy : Monitor := { monitor with Tags := monitor.Tags ++ [tag] }
      monitor)
    monitors

/-- config.go `AppendTag`: loops over the set's monitors appending `tag` to
each loop-variable copy (see rangeAppendTagToCopies). -/
def MonitorSet.AppendTag (mSet : MonitorSet) (tag : String) : MonitorSet :=
  { mSet with Monitors := rangeAppendTagToCopies mSet.Monitors tag }

/-- config.go `GetBoundMonitors`. `nsResult` is the outcome of the kube
lookup of the object's namespace: its annotation map, or an error (on which
the source logs and falls through to return the empty collection). For each
`"binding"`-type rule whose BoundObjects contains the object type, the
source runs AppendTag and a second copy-append loop, then appends
`mSet.Monitors` to the result. -/
def GetBoundMonitors (config : Config) (nsResult : Except String GoMap) (objectType : String) : List Monitor :=
  match nsResult with
  | Except.error _ => []
  | Except.ok nsAnnotations =>
    List.flatMap (getMatchingRulesets config nsAnnotations ("binding"))
      (fun mSet =>
        if contains mSet.BoundObjects objectType then
          let mSet1 := MonitorSet.AppendTag mSet ("dd-manager:bound_object")
          let mSet2 := { mSet1 with
            Monitors := rangeAppendTagToCopies mSet1.Monitors ("dd-manager:bound_object") }
          mSet2.Monitors
        else [])

/-- config.go `reloadRulesets`, cluster-variable read side: ranging over a
nil map runs zero iterations. -/
def cvEntries : Option GoMap → GoMap
  | none => []
  | some m => m

/-- config.go `reloadRulesets`, cluster-variable write side: the loop
`for k, v := range rSet.ClusterVariables \x7b rulesetCollection.ClusterVariables[k] = v \x7d`.
Writing into a nil Go map panics at the first entry. -/
def assignClusterVars : Option GoMap → GoMap → Except Unit (Option GoMap)
  | dst, [] => Except.ok dst
  | none, _ :: _ => Except.error ()
  | some m, (k, v) :: rest => assignClusterVars (some (mapInsert m k v)) rest

/-- config.go `reloadRulesets`, main loop. `fetch` folds `loadFromPath` and
`yaml.Unmarshal` into one step (both failure paths log and `continue`, so
only success versus failure is observable); `acc` is `rulesetCollection`,
which starts as `ruleset{}` — monitor sets empty and ClusterVariables a nil
map that is never initialised. -/
def reloadLoop (fetch : String → Option ruleset) : List String → ruleset → Except Unit ruleset
  | [], acc => Except.ok acc
  | path :: rest, acc =>
    match fetch path with
    | none => reloadLoop fetch rest acc
    | some rSet =>
      let acc1 : ruleset := { acc with MonitorSets := acc.MonitorSets ++ rSet.MonitorSets }
      match assignClusterVars acc1.ClusterVariables (cvEntries rSet.ClusterVariables) with
      | Except.error e => Except.error e
      | Except.ok cv => reloadLoop fetch rest { acc1 with ClusterVariables := cv }

/-- config.go `reloadRulesets`: rebuild `rulesetCollection` from the
configured paths and install it as `config.Rulesets`, replacing the previous
value wholesale. A panic in the loop aborts (and, in the source, kills the
process: the reload goroutine has no recover). -/
def reloadRulesets (fetch : String → Option ruleset) (config : Config) : Except Unit Config :=
  match reloadLoop fetch config.MonitorDefinitionsPath { ClusterVariables := none, MonitorSets := [] } with
  | Except.error e => Except.error e
  | Except.ok rulesetCollection => Except.ok { config with Rulesets := rulesetCollection }

/-- One call issued to the datadog backend. -/
inductive DDCall where
  | getByTags (tags : List String)
  | create (m : DdMonitor)
  | update (m : DdMonitor)
  | delete (id : Int)
deriving DecidableEq

/-- The datadog HTTP client, as the results its endpoints would return.
`getMonitorsByTagsResult` is `Except.error` on a network/read failure and
`Except.ok` with the owned monitors otherwise; update and delete return an
error or Go `nil` (`none`). -/
structure DDEnv where
  getMonitorsByTagsResult : List String → Except String (List DdMonitor)
  createMonitorResult : DdMonitor → Except String DdMonitor
  updateMonitorResult : DdMonitor → Option String
  deleteMonitorResult : Int → Option String

/-- datadog.go `GetProvisionedMonitors`: list the monitors carrying the
owner tag. Returns the result plus the call trace. -/
def GetProvisionedMonitors (env : DDEnv) (config : Config) : Except String (List DdMonitor) × List DDCall :=
  (env.getMonitorsByTagsResult [config.OwnerTag], [DDCall.getByTags [config.OwnerTag]])

/-- datadog.go `createMonitor`: one create call against the backend. -/
def createMonitor (env : DDEnv) (monitor : DdMonitor) : Except String DdMonitor × List DDCall :=
  (env.createMonitorResult monitor, [DDCall.create monitor])

/-- datadog.go `updateMonitor`: one update call against the backend. -/
def updateMonitor (env : DDEnv) (monitor : DdMonitor) : Option String × List DDCall :=
  (env.updateMonitorResult monitor, [DDCall.update monitor])

/-- datadog.go `GetProvisionedMonitor`: list the owned monitors and return
the first whose name equals the desired monitor's name. Both a failed list
call and an absent monitor come back as `Except.error` — the caller cannot
tell them apart. -/
def GetProvisionedMonitor (env : DDEnv) (config : Config) (monitor : Monitor) : Except String DdMonitor × List DDCall :=
  match GetProvisionedMonitors env config with
  | (Except.error e, calls) => (Except.error e, calls)
  | (Except.ok monitors, calls) =>
    match List.find? (fun ddMonitor => ddMonitor.Name == monitor.Name) monitors with
    | some ddMonitor => (Except.ok ddMonitor, calls)
    | none => (Except.error ("Monitor does not exist."), calls)

/-- datadog.go `AddOrUpdate`: on any error from GetProvisionedMonitor the
source comments that the monitor does not exist and creates it — a failed
backend read takes this same branch. On success it compares the desired
monitor with `toMonitor ddMonitor` by `reflect.DeepEqual` (field-for-field,
list order significant) and either no-ops or updates. -/
def AddOrUpdate (env : DDEnv) (config : Config) (monitor : Monitor) : (Option Int × Option String) × List DDCall :=
  match GetProvisionedMonitor env config monitor with
  | (Except.error _, calls0) =>
    match createMonitor env (toDdMonitor monitor) with
    | (Except.error e, calls1) => ((none, some e), calls0 ++ calls1)
    | (Except.ok provisioned, calls1) => ((provisioned.Id, none), calls0 ++ calls1)
  | (Except.ok ddMonitor, calls0) =>
    if monitor = toMonitor ddMonitor then
      ((ddMonitor.Id, none), calls0)
    else
      match updateMonitor env (toDdMonitor monitor) with
      | (some e, calls1) => ((ddMonitor.Id, some e), calls0 ++ calls1)
      | (none, calls1) => ((ddMonitor.Id, none), calls0 ++ calls1)

/-- datadog.go `DeleteMonitor`. The source tests `if err != nil` and only
then calls `client.DeleteMonitor(*ddMonitor.Id)`: on that branch ddMonitor
is Go nil, so the dereference panics before any backend call; on the branch
where the monitor was found it returns nil without deleting anything. -/
def DeleteMonitor (env : DDEnv) (config : Config) (monitor : Monitor) : Except Unit (Option String) × List DDCall :=
  match GetProvisionedMonitor env config monitor with
  | (Except.error _, calls0) => (Except.error (), calls0)
  | (Except.ok _, calls0) => (Except.ok none, calls0)

/-- The live deployment object, reduced to what the handlers read directly
(the template engine's view of the object lives in the render oracle). -/
structure Deployment where
  Annotations : GoMap
deriving DecidableEq

/-- What a deployment event handler does with one monitor: render it with
`applyDeploymentTemplate`, or remove it with `util.DeleteMonitor`. -/
inductive HandlerAction where
  | applyTemplate (m : Monitor)
  | deleteMonitor (m : Monitor)
deriving DecidableEq

/-- deployments.go `OnUpdatedDeployment`: fetch the matching monitors for
type "deployment" and apply the template to each. -/
def OnUpdatedDeployment (config : Config) (deployment : Deployment) : List HandlerAction :=
  List.map HandlerAction.applyTemplate
    (GetMatchingMonitors config deployment.Annotations ("deployment"))

/-- deployments.go `OnCreatedDeployment`: identical body to the update
handler. -/
def OnCreatedDeployment (config : Config) (deployment : Deployment) : List HandlerAction :=
  List.map HandlerAction.applyTemplate
    (GetMatchingMonitors config deployment.Annotations ("deployment"))

/-- deployments.go `OnDeletedDeployment`: after its log line the body is the
same match-and-render loop as the create/update handlers; `DeleteMonitor` is
never called. -/
def OnDeletedDeployment (config : Config) (deployment : Deployment) : List HandlerAction :=
  List.map HandlerAction.applyTemplate
    (GetMatchingMonitors config deployment.Annotations ("deployment"))

/-- Outcome of handing one field's template text to text/template for this
deployment: the text fails to parse (`template.Parse` returns a nil template
and an error the handler discards), or it parses but `Execute` fails after
writing `buffered` into the buffer, or it executes fully. -/
inductive TplOutcome where
  | parseError
  | execError (buffered : String)
  | ok (out : String)
deriving DecidableEq

/-- deployments.go `applyDeploymentTemplate`, one field: `Execute` into the
reset buffer, log on error, then unconditionally assign `tpl.String()` to
the field. A parse failure means `Execute` is called on a nil `*Template`,
which dereferences nil — a runtime panic that text/template's recover
re-raises. Returns the new field text and whether an error was logged. -/
def execField (render : String → TplOutcome) (text : String) : Except Unit (String × Bool) :=
  match render text with
  | TplOutcome.parseError => Except.error ()
  | TplOutcome.execError buffered => Except.ok (buffered, true)
  | TplOutcome.ok out => Except.ok (out, false)

/-- deployments.go `applyDeploymentTemplate`: render name, query, message
and escalation message in that order, each with its own template and its own
error handling (the query-field log line at source line 62 has an
unterminated string literal; its evident intent, an error log, is what is
modelled). Returns the monitor with the four text fields replaced and the
per-field logged-error flags. -/
def applyDeploymentTemplate (render : String → TplOutcome) (monitor : Monitor) : Except Unit (Monitor × List Bool) :=
  match execField render monitor.Name with
  | Except.error e => Except.error e
  | Except.ok (nameOut, e1) =>
    match execField render monitor.Query with
    | Except.error e => Except.error e
    | Except.ok (queryOut, e2) =>
      match execField render monitor.Message with
      | Except.error e => Except.error e
      | Except.ok (msgOut, e3) =>
        match execField render monitor.EscalationMessage with
        | Except.error e => Except.error e
        | Except.ok (emOut, e4) =>
          Except.ok
            ({ monitor with
                Name := nameOut
                Query := queryOut
                Message := msgOut
                EscalationMessage := emOut },
              [e1, e2, e3, e4])

/-- The text an executed field ends up holding, per outcome (unused for
parseError, which panics instead). -/
def fieldText : TplOutcome → String
  | TplOutcome.parseError => ""
  | TplOutcome.execError buffered => buffered
  | TplOutcome.ok out => out

/-- Whether an outcome makes the handler log a template error. -/
def fieldFailed : TplOutcome → Bool
  | TplOutcome.parseError => true
  | TplOutcome.execError _ => true
  | TplOutcome.ok _ => false

/-- Spec-side matcher predicate, following the spec's words for comparison
with the source-derived `getMatchingRulesets`: the rule's objectType equals
the object's type and every required annotation is present with an exactly
equal value. The extra nonemptiness conjunct is what the source adds. -/
def specSelected (annotations : GoMap) (objectType : String) (mSet : MonitorSet) : Bool :=
  mSet.ObjectType == objectType &&
  !mSet.Annotations.isEmpty &&
  mSet.Annotations.all (fun a => mapLookup annotations a.Name == some a.Value)

/-- A baseline monitor with every structured field at its zero value. -/
def mon0 : Monitor :=
  { Name := "astro-base"
    MonitorType := "metric alert"
    Query := "avg:metric > 0"
    Message := "alert"
    Tags := ["astro"]
    NoDataTimeframe := 0
    NotifyAudit := false
    NotifyNoData := false
    RenotifyInterval := 0
    NewHostDelay := 0
    EvaluationDelay := 0
    Timeout := 0
    EscalationMessage := "escalate"
    Thresholds := { Ok := none, Critical := some 1, Warning := none, Unknown := none, CriticalRecovery := none, WarningRecovery := none }
    RequireFullWindow := false
    Locked := false }

/-- A baseline configuration with the default owner tag and no rules. -/
def cfg0 : Config :=
  { OwnerTag := "dd-manager"
    MonitorDefinitionsPath := []
    Rulesets := { ClusterVariables := none, MonitorSets := [] } }

/-- A rule previously loaded from source `src-a`. -/
def msA : MonitorSet :=
  { ObjectType := "deployment"
    Annotations := [{ Name := "astro/team", Value := "a" }]
    BoundObjects := []
    Monitors := [{ mon0 with Name := "mon-from-a" }] }

/-- A rule served by source `src-b`. -/
def msB : MonitorSet :=
  { ObjectType := "deployment"
    Annotations := [{ Name := "astro/team", Value := "b" }]
    BoundObjects := []
    Monitors := [{ mon0 with Name := "mon-from-b" }] }

/-- Fetch outcome for a reload during which `src-a` has become unreachable
while `src-b` still serves its rule. -/
def fetchC1 : String → Option ruleset := fun path =>
  if path = "src-b" then some { ClusterVariables := none, MonitorSets := [msB] } else none

/-- Configuration whose previous reload had loaded both sources. -/
def cfgC1 : Config :=
  { cfg0 with
    MonitorDefinitionsPath := ["src-a", "src-b"]
    Rulesets := { ClusterVariables := none, MonitorSets := [msA, msB] } }

/-- A backend whose monitor listing fails with a network error. -/
def envNetFail : DDEnv :=
  { getMonitorsByTagsResult := fun _ => Except.error ("connection refused")
    createMonitorResult := fun m => Except.ok { m with Id := some 1 }
    updateMonitorResult := fun _ => none
    deleteMonitorResult := fun _ => none }

/-- A desired monitor reconciled while the backend read fails. -/
def mon2 : Monitor := { mon0 with Name := "dup-risk" }

/-- A monitor carried by a binding rule, with no inheritance marker of its
own. -/
def mon3 : Monitor := { mon0 with Name := "bound-mon", Tags := ["base"] }

/-- A binding rule whose bound objects include deployments. -/
def ms3 : MonitorSet :=
  { ObjectType := "binding"
    Annotations := [{ Name := "astro", Value := "enabled" }]
    BoundObjects := ["deployment"]
    Monitors := [mon3] }

/-- Configuration holding only the binding rule. -/
def cfg3 : Config := { cfg0 with Rulesets := { ClusterVariables := none, MonitorSets := [ms3] } }

/-- A monitor attached to deployments by annotation. -/
def mon4 : Monitor := { mon0 with Name := "dep-mon" }

/-- A deployment-matching rule for the deletion-handler check. -/
def ms4 : MonitorSet :=
  { ObjectType := "deployment"
    Annotations := [{ Name := "astro/owner", Value := "true" }]
    BoundObjects := []
    Monitors := [mon4] }

/-- Configuration holding only the deployment rule. -/
def cfg4 : Config := { cfg0 with Rulesets := { ClusterVariables := none, MonitorSets := [ms4] } }

/-- A deployment carrying the matching annotation. -/
def dep4 : Deployment := { Annotations := [("astro/owner", "true")] }

/-- A single source that parses successfully and defines a cluster
variable. -/
def fetch5 : String → Option ruleset := fun _ =>
  some { ClusterVariables := some [("cluster", "prod")], MonitorSets := [] }

/-- Configuration pointing at the default definitions path. -/
def cfg5 : Config := { cfg0 with MonitorDefinitionsPath := ["conf.yml"] }

/-- A rule whose required-annotation list is empty. -/
def msEmpty : MonitorSet :=
  { ObjectType := "deployment", Annotations := [], BoundObjects := [], Monitors := [mon0] }

/-- Configuration holding only the empty-annotations rule. -/
def cfg6 : Config := { cfg0 with Rulesets := { ClusterVariables := none, MonitorSets := [msEmpty] } }

/-- Desired monitor with tags in declaration order. -/
def m7 : Monitor := { mon0 with Name := "tagged", Tags := ["astro", "extra"] }

/-- The same monitor as provisioned in the backend, tags in the other
order. -/
def dd7 : DdMonitor :=
  { toDdMonitor { mon0 with Name := "tagged", Tags := ["extra", "astro"] } with Id := some 7 }

/-- A backend already holding dd7. -/
def env7 : DDEnv :=
  { getMonitorsByTagsResult := fun _ => Except.ok [dd7]
    createMonitorResult := fun m => Except.ok m
    updateMonitorResult := fun _ => none
    deleteMonitorResult := fun _ => none }

/-- A provisioned monitor exactly equal (after conversion) to mon0. -/
def dd7n : DdMonitor := { toDdMonitor mon0 with Id := some 3 }

/-- A backend already holding dd7n. -/
def env7n : DDEnv :=
  { getMonitorsByTagsResult := fun _ => Except.ok [dd7n]
    createMonitorResult := fun m => Except.ok m
    updateMonitorResult := fun _ => none
    deleteMonitorResult := fun _ => none }

/-- A monitor template whose query field will fail substitution. -/
def monitor8 : Monitor :=
  { mon0 with
    Name := "tpl-name"
    Query := "tpl-query-bad"
    Message := "tpl-msg"
    EscalationMessage := "tpl-em" }

/-- Template-engine outcomes for monitor8 against the live deployment: the
query text fails at execution time with an empty buffer, the other three
fields render. -/
def render8 : String → TplOutcome := fun text =>
  if text = "tpl-name" then TplOutcome.ok ("rendered-name")
  else if text = "tpl-query-bad" then TplOutcome.execError ("")
  else if text = "tpl-msg" then TplOutcome.ok ("rendered-msg")
  else if text = "tpl-em" then TplOutcome.ok ("rendered-em")
  else TplOutcome.ok text

/-- A monitor whose name matches an owned backend monitor. -/
def mon9p : Monitor := { mon0 with Name := "present" }

/-- A monitor with no matching backend monitor. -/
def mon9g : Monitor := { mon0 with Name := "ghost" }

/-- The backend's provisioned copy of mon9p. -/
def dd9 : DdMonitor := { toDdMonitor mon9p with Id := some 9 }

/-- A healthy backend owning exactly dd9. -/
def env9 : DDEnv :=
  { getMonitorsByTagsResult := fun _ => Except.ok [dd9]
    createMonitorResult := fun m => Except.ok m
    updateMonitorResult := fun _ => none
    deleteMonitorResult := fun _ => none }

/-- Helper: the Go range-and-append loop leaves the monitor list unchanged,
because each append lands in the loop-variable copy. -/
theorem rangeAppendTagToCopies_eq (monitors : List Monitor) (tag : String) :
    rangeAppendTagToCopies monitors tag = monitors := by
  simp [rangeAppendTagToCopies]

/-- Helper: one unfolding step of the matcher flag loop. -/
theorem hasAllAnnotations_cons_eq (annotations : GoMap) (b : Bool) (a : AnnotationPair) (rest : List AnnotationPair) :
    hasAllAnnotations annotations b (a :: rest) =
      match mapLookup annotations a.Name with
      | some v => if v = a.Value then hasAllAnnotations annotations true rest else false
      | none => false := rfl

/-- Helper: on a nonempty required-annotation list the matcher flag computes
the conjunction of the per-annotation exact-value checks, whatever its
initial value. -/
theorem hasAllAnnotations_cons (annotations : GoMap) (b : Bool) (a : AnnotationPair) (rest : List AnnotationPair) :
    hasAllAnnotations annotations b (a :: rest) =
      List.all (a :: rest) (fun x => mapLookup annotations x.Name == some x.Value) := by
  induction rest generalizing a b with
  | nil =>
    rw [hasAllAnnotations_cons_eq]
    cases h : mapLookup annotations a.Name with
    | none => simp [h]
    | some v =>
      by_cases hv : v = a.Value <;> simp [hasAllAnnotations, hv, h]
  | cons a2 rest2 ih =>
    rw [hasAllAnnotations_cons_eq]
    cases h : mapLookup annotations a.Name with
    | none => simp [h]
    | some v =>
      rw [ih]
      by_cases hv : v = a.Value <;> simp [hv, h, List.all_cons]

/-- C2: on a backend read failure `AddOrUpdate` does not abort — the error
branch (commented in the source as the monitor not existing) issues a create
call, the duplicate-provisioning path the claim rules out. -/
theorem addOrUpdate_creates_on_read_failure :
    envNetFail.getMonitorsByTagsResult [cfg0.OwnerTag] = Except.error ("connection refused") ∧
    (AddOrUpdate envNetFail cfg0 mon2).2 =
      [DDCall.getByTags [cfg0.OwnerTag], DDCall.create (toDdMonitor mon2)] := by
  constructor
  · rfl
  · rfl

/-- C3: the monitors `GetBoundMonitors` returns through the binding path do
not carry the inheritance marker tag: both tag-appending loops write into
range copies, so the returned monitor still has only its original tags. -/
theorem getBoundMonitors_returns_untagged :
    GetBoundMonitors cfg3 (Except.ok [("astro", "enabled")]) ("deployment") = [mon3] ∧
    ("dd-manager:bound_object" ∈ mon3.Tags) = False := by
  constructor
  · rfl
  · simp [mon3, mon0]

/-- C4: the deployment deletion handler does not take a remove-owned-
monitors path — it runs exactly the create/update match-and-render body and
issues no delete action. -/
theorem onDeletedDeployment_renders_instead_of_deleting :
    OnDeletedDeployment cfg4 dep4 = [HandlerAction.applyTemplate mon4] ∧
    OnDeletedDeployment cfg4 dep4 = OnUpdatedDeployment cfg4 dep4 ∧
    HandlerAction.deleteMonitor mon4 ∉ OnDeletedDeployment cfg4 dep4 := by
  refine ⟨rfl, rfl, ?_⟩
  decide

/-- C5: a reload whose single source parses successfully and defines a
cluster variable panics: `rulesetCollection.ClusterVariables` is a nil map
that the merge loop writes into. -/
theorem reloadRulesets_panics_on_cluster_variables :
    reloadRulesets fetch5 cfg5 = Except.error () := by
  rfl

/-- C9: `DeleteMonitor` is inverted — for a monitor whose name matches an
owned backend monitor it returns nil without issuing the backend delete, and
for a name with no owned monitor it dereferences the nil monitor (a panic)
instead of returning cleanly. -/
theorem deleteMonitor_skips_existing_and_panics_on_missing :
    DeleteMonitor env9 cfg0 mon9p = (Except.ok none, [DDCall.getByTags [cfg0.OwnerTag]]) ∧
    DeleteMonitor env9 cfg0 mon9g = (Except.error (), [DDCall.getByTags [cfg0.OwnerTag]]) := by
  constructor
  · rfl
  · rfl

/-- C1 counterexample: a reload in which previously loaded `src-a` has
become unreachable publishes a ruleset holding only `src-b`'s rule — the
prior contribution of `src-a` is gone, refuting the retention half of the
claim. -/
theorem reloadRulesets_drops_prior_contribution :
    msA ∈ cfgC1.Rulesets.MonitorSets ∧
    fetchC1 ("src-a") = none ∧
    reloadRulesets fetchC1 cfgC1 =
      Except.ok { cfgC1 with Rulesets := { ClusterVariables := none, MonitorSets := [msB] } } ∧
    msA ∉ [msB] := by
  refine ⟨?_, rfl, rfl, ?_⟩
  · decide
  · decide

/-- C6 counterexample: a rule with an empty required-annotation list fulfils
the claim's selection condition (its objectType matches and every one of its
required annotations vacuously matches), yet the matcher does not select it. -/
theorem getMatchingRulesets_rejects_empty_annotation_rule :
    msEmpty.ObjectType = "deployment" ∧
    List.all msEmpty.Annotations (fun a => mapLookup [] a.Name == some a.Value) = true ∧
    getMatchingRulesets cfg6 [] ("deployment") = [] := by
  refine ⟨rfl, rfl, rfl⟩

/-- C7 counterexample: a desired monitor and a provisioned monitor that are
field-for-field equal up to tag order (equal tag multisets) are not a no-op:
the reflect.DeepEqual comparison is order-sensitive, so an update call is
issued. -/
theorem addOrUpdate_updates_on_reordered_tags :
    List.Perm m7.Tags (toMonitor dd7).Tags ∧
    m7 = { toMonitor dd7 with Tags := m7.Tags } ∧
    DDCall.update (toDdMonitor m7) ∈ (AddOrUpdate env7 cfg0 m7).2 := by
  refine ⟨?_, ?_, ?_⟩
  · decide
  · decide
  · decide

/-- Helper: one unfolding step of the reload loop. -/
theorem reloadLoop_cons_eq (fetch : String → Option ruleset) (p : String) (rest : List String) (acc : ruleset) :
    reloadLoop fetch (p :: rest) acc =
      match fetch p with
      | none => reloadLoop fetch rest acc
      | some rSet =>
        let acc1 : ruleset := { acc with MonitorSets := acc.MonitorSets ++ rSet.MonitorSets }
        match assignClusterVars acc1.ClusterVariables (cvEntries rSet.ClusterVariables) with
        | Except.error e => Except.error e
        | Except.ok cv => reloadLoop fetch rest { acc1 with ClusterVariables := cv } := rfl

/-- Helper: when no successfully fetched source carries cluster variables,
the reload loop succeeds and appends exactly the successful sources' monitor
sets, in path order, to the accumulator. -/
theorem reloadLoop_merges (fetch : String → Option ruleset) (paths : List String) (acc : ruleset)
    (h : List.all (List.filterMap fetch paths) (fun r => List.isEmpty (cvEntries r.ClusterVariables)) = true) :
    reloadLoop fetch paths acc =
      Except.ok
        { ClusterVariables := acc.ClusterVariables
          MonitorSets := acc.MonitorSets ++ List.flatMap (List.filterMap fetch paths) ruleset.MonitorSets } := by
  induction paths generalizing acc with
  | nil => simp [reloadLoop]
  | cons p rest ih =>
    rw [reloadLoop_cons_eq]
    cases hp : fetch p with
    | none =>
      simp only [List.filterMap_cons, hp] at h ⊢
      exact ih acc h
    | some rSet =>
      simp only [List.filterMap_cons, hp, List.all_cons, Bool.and_eq_true] at h
      have hcv : cvEntries rSet.ClusterVariables = [] := by
        simpa using h.1
      simp only [hcv, assignClusterVars]
      rw [ih _ h.2]
      simp [List.flatMap_cons, List.append_assoc, List.filterMap_cons, hp]

/-- C1 (amended): if fetching or parsing fails for some sources, those
sources are skipped and the published ruleset is exactly the merge, in path
order, of the sources that succeeded — so the failing sources' prior
contributions are discarded rather than retained (hypothesis: no fetched
source defines cluster variables, which would panic — see C5). -/
theorem reloadRulesets_skips_failed_sources (fetch : String → Option ruleset) (config : Config)
    (h : List.all (List.filterMap fetch config.MonitorDefinitionsPath)
      (fun r => List.isEmpty (cvEntries r.ClusterVariables)) = true) :
    reloadRulesets fetch config =
      Except.ok
        { config with Rulesets :=
          { ClusterVariables := none
            MonitorSets :=
              List.flatMap (List.filterMap fetch config.MonitorDefinitionsPath) ruleset.MonitorSets } } := by
  unfold reloadRulesets
  rw [reloadLoop_merges fetch config.MonitorDefinitionsPath _ h]
  simp

/-- C1 witness: on the concrete two-source reload (src-a failing, src-b
serving msB) the amended theorem applies and publishes exactly src-b's
rule. -/
theorem reloadRulesets_skips_failed_sources_witness :
    List.all (List.filterMap fetchC1 cfgC1.MonitorDefinitionsPath)
      (fun r => List.isEmpty (cvEntries r.ClusterVariables)) = true ∧
    reloadRulesets fetchC1 cfgC1 =
      Except.ok
        { cfgC1 with Rulesets :=
          { ClusterVariables := none
            MonitorSets :=
              List.flatMap (List.filterMap fetchC1 cfgC1.MonitorDefinitionsPath) ruleset.MonitorSets } } :=
  ⟨by decide, reloadRulesets_skips_failed_sources fetchC1 cfgC1 (by decide)⟩

/-- C6 (amended): the matcher selects exactly the rules, in declaration
order, whose objectType equals the given type, whose required-annotation
list is nonempty, and whose every required annotation is present in the
object's annotations with an exactly equal value; annotations beyond the
required ones play no part. -/
theorem getMatchingRulesets_eq_spec (config : Config) (annotations : GoMap) (objectType : String) :
    getMatchingRulesets config annotations objectType =
      List.filter (specSelected annotations objectType) config.Rulesets.MonitorSets := by
  unfold getMatchingRulesets
  apply List.filter_congr
  intro mSet _
  unfold specSelected
  cases hA : mSet.Annotations with
  | nil => simp [hasAllAnnotations]
  | cons a rest =>
    rw [hasAllAnnotations_cons]
    simp

/-- C10: a rule whose required-annotation list is empty is never selected by
the matcher, for any configuration, annotation map and object type. -/
theorem emptyAnnotationRule_never_matches (config : Config) (annotations : GoMap) (objectType : String)
    (mSet : MonitorSet) (h : mSet.Annotations = []) :
    mSet ∉ getMatchingRulesets config annotations objectType := by
  intro hmem
  unfold getMatchingRulesets at hmem
  rw [List.mem_filter] at hmem
  have h2 := hmem.2
  rw [h] at h2
  simp [hasAllAnnotations] at h2

/-- C10 witness: the concrete empty-annotations rule is not selected even
though its object type matches. -/
theorem emptyAnnotationRule_never_matches_witness :
    msEmpty.Annotations = [] ∧ msEmpty ∉ getMatchingRulesets cfg6 [] ("deployment") :=
  ⟨rfl, emptyAnnotationRule_never_matches cfg6 [] ("deployment") msEmpty rfl⟩

/-- C7 (amended): the sync step is a no-op — only the listing call, no
create and no update — exactly when the desired monitor is deep-equal,
field-for-field with list order significant, to the provisioned monitor's
conversion; this is the reflect.DeepEqual comparison of the source. -/
theorem addOrUpdate_noop_on_deep_equal (env : DDEnv) (config : Config) (monitor : Monitor)
    (dd : DdMonitor) (l : List DdMonitor)
    (hlist : env.getMonitorsByTagsResult [config.OwnerTag] = Except.ok l)
    (hfind : List.find? (fun d => d.Name == monitor.Name) l = some dd)
    (heq : monitor = toMonitor dd) :
    AddOrUpdate env config monitor = ((dd.Id, none), [DDCall.getByTags [config.OwnerTag]]) := by
  subst heq
  simp [AddOrUpdate, GetProvisionedMonitor, GetProvisionedMonitors, hlist, hfind]

/-- C7 witness: with the backend already holding dd7n, whose conversion
equals mon0 exactly, AddOrUpdate issues only the listing call. -/
theorem addOrUpdate_noop_on_deep_equal_witness :
    env7n.getMonitorsByTagsResult [cfg0.OwnerTag] = Except.ok [dd7n] ∧
    List.find? (fun d => d.Name == mon0.Name) [dd7n] = some dd7n ∧
    mon0 = toMonitor dd7n ∧
    AddOrUpdate env7n cfg0 mon0 = ((some 3, none), [DDCall.getByTags [cfg0.OwnerTag]]) :=
  ⟨rfl, by decide, by decide,
    addOrUpdate_noop_on_deep_equal env7n cfg0 mon0 dd7n [dd7n] rfl (by decide) (by decide)⟩

/-- Helper: a field whose template text parses (no parse error) ends up
holding the outcome's text, with the logged-error flag set exactly on an
execution failure. -/
theorem execField_eq (render : String → TplOutcome) (text : String)
    (h : render text ≠ TplOutcome.parseError) :
    execField render text = Except.ok (fieldText (render text), fieldFailed (render text)) := by
  cases hr : render text with
  | parseError => exact absurd hr h
  | execError s => simp [execField, fieldText, fieldFailed, hr]
  | ok s => simp [execField, fieldText, fieldFailed, hr]

/-- C8 (amended): when every field's template text parses, the four text
fields are rendered independently — each ends up holding its own outcome's
text, an execution failure on one field is logged (flag true) without
aborting the others, and a failing field is overwritten with the engine's
partial output rather than keeping its prior text. -/
theorem applyDeploymentTemplate_fields_independent (render : String → TplOutcome) (monitor : Monitor)
    (hn : render monitor.Name ≠ TplOutcome.parseError)
    (hq : render monitor.Query ≠ TplOutcome.parseError)
    (hm : render monitor.Message ≠ TplOutcome.parseError)
    (he : render monitor.EscalationMessage ≠ TplOutcome.parseError) :
    applyDeploymentTemplate render monitor =
      Except.ok
        ({ monitor with
            Name := fieldText (render monitor.Name)
            Query := fieldText (render monitor.Query)
            Message := fieldText (render monitor.Message)
            EscalationMessage := fieldText (render monitor.EscalationMessage) },
          [fieldFailed (render monitor.Name), fieldFailed (render monitor.Query),
            fieldFailed (render monitor.Message), fieldFailed (render monitor.EscalationMessage)]) := by
  unfold applyDeploymentTemplate
  rw [execField_eq render monitor.Name hn, execField_eq render monitor.Query hq,
    execField_eq render monitor.Message hm, execField_eq render monitor.EscalationMessage he]

/-- C8 witness: the amended theorem applied to the concrete monitor whose
query fails at execution time while the other three fields render. -/
theorem applyDeploymentTemplate_fields_independent_witness :
    render8 monitor8.Name ≠ TplOutcome.parseError ∧
    render8 monitor8.Query ≠ TplOutcome.parseError ∧
    render8 monitor8.Message ≠ TplOutcome.parseError ∧
    render8 monitor8.EscalationMessage ≠ TplOutcome.parseError ∧
    applyDeploymentTemplate render8 monitor8 =
      Except.ok
        ({ monitor8 with
            Name := fieldText (render8 monitor8.Name)
            Query := fieldText (render8 monitor8.Query)
            Message := fieldText (render8 monitor8.Message)
            EscalationMessage := fieldText (render8 monitor8.EscalationMessage) },
          [fieldFailed (render8 monitor8.Name), fieldFailed (render8 monitor8.Query),
            fieldFailed (render8 monitor8.Message), fieldFailed (render8 monitor8.EscalationMessage)]) :=
  ⟨by decide, by decide, by decide, by decide,
    applyDeploymentTemplate_fields_independent render8 monitor8
      (by decide) (by decide) (by decide) (by decide)⟩

/-- C8 counterexample: a substitution failure on the query field does not
leave the field's prior unrendered text — the handler assigns the (empty)
buffer to the field — while the name field still renders; this refutes the
prior-text-preserved half of the claim. -/
theorem applyDeploymentTemplate_overwrites_failed_field :
    applyDeploymentTemplate render8 monitor8 =
      Except.ok
        ({ monitor8 with
            Name := "rendered-name"
            Query := ""
            Message := "rendered-msg"
            EscalationMessage := "rendered-em" },
          [false, true, false, false]) ∧
    monitor8.Query ≠ "" := by
  constructor
  · rfl
  · decide

end Astro
